import Mathlib

/-!
Shallow embedding of the element-interaction engine of this repository
(`hercules/core/skills/click_using_selector.py`) and of the telemetry event
collector (`testzeus_hercules/telemetry.py`), together with proofs settling
the specification claims about them.

Modelling conventions, stated once here:

* A DOM node carries its (lowercase) tag name, its attribute list, the list of
  opaque selector strings that match it, its option text, its serialized outer
  HTML, its light-DOM children, an optional shadow root (a list of root nodes
  of the shadow tree, a separate query context) and its iframe content.
  Selectors are opaque (spec §3: "an opaque string identifying zero-or-one
  target nodes within a search root"); a node stores which selectors match it.
* Tag names are stored lowercase: every tag read in the source goes through
  `tagName.toLowerCase()`.
* `querySelector` on a context searches only that context in document
  (pre-order) order, never crossing shadow-root or iframe boundaries.  This is
  the semantics the source itself relies on: the comments of
  `is_element_present` ("If the element is found in the regular DOM ... If not
  found in the regular DOM, check inside shadow DOMs") and the recursive
  in-page scripts exist only because the direct query cannot see across those
  boundaries, and the spec states it explicitly (§4.1: "a single `query
  selector` primitive cannot see across these boundaries").
* Machine effects that the claims observe (exceptions thrown by the browser
  layer, the post-click value of `aria-expanded`, the mutation notification
  delivered while subscribed, the current page) are supplied by explicit
  environment records; everything else is translated directly from the source.
-/

namespace Hercules

mutual
/-- Iframe content of a node: not an iframe / an iframe whose document is
cross-origin (accessing it throws, which the source catches) / a same-origin
iframe with its content document. -/
inductive Frame : Type where
  | noFrame : Frame
  | crossOrigin : Frame
  | sameOrigin : (doc : List Node) → Frame

inductive Node : Type where
  | mk : (tag : String) → (attrs : List (String × String)) →
      (sels : List String) → (text : String) → (outerHtml : String) →
      (children : List Node) → (shadowRoot : Option (List Node)) →
      (frame : Frame) → Node
end

def Node.tag : Node → String
  | Node.mk t _ _ _ _ _ _ _ => t

def Node.attrs : Node → List (String × String)
  | Node.mk _ a _ _ _ _ _ _ => a

def Node.sels : Node → List String
  | Node.mk _ _ s _ _ _ _ _ => s

def Node.text : Node → String
  | Node.mk _ _ _ tx _ _ _ _ => tx

def Node.outerHtml : Node → String
  | Node.mk _ _ _ _ oh _ _ _ => oh

def Node.children : Node → List Node
  | Node.mk _ _ _ _ _ ch _ _ => ch

def Node.shadowRoot : Node → Option (List Node)
  | Node.mk _ _ _ _ _ _ sh _ => sh

def Node.frame : Node → Frame
  | Node.mk _ _ _ _ _ _ _ fr => fr

/-- `element.getAttribute(name)` / Playwright `get_attribute`: the attribute
value, or null (`none`) when absent. -/
def getAttribute (n : Node) (name : String) : Option String :=
  (n.attrs.find? (fun p => p.1 == name)).map (fun p => p.2)

mutual
/-- `parent.querySelector(selector)` restricted to one subtree: the node
itself, then its light-DOM descendants, in document (pre-order) order.  Does
not enter shadow roots or iframes. -/
def qsNode (selector : String) : Node → Option Node
  | Node.mk t a sels tx oh ch sh fr =>
    if sels.contains selector then some (Node.mk t a sels tx oh ch sh fr)
    else qsList selector ch

/-- `parent.querySelector(selector)` on a query context given by its list of
root nodes: first match in document order, light DOM only. -/
def qsList (selector : String) : List Node → Option Node
  | [] => none
  | n :: rest =>
    match qsNode selector n with
    | some e => some e
    | none => qsList selector rest
end

mutual
/-- One step of the loop `for (const el of parent.querySelectorAll('*'))` of
the in-page script `findElementInShadowDOMAndIframes`, for the element `n` and
(recursively, in the same document order) its light-DOM descendants:

* if `el.shadowRoot` exists, recurse into it with the full search
  (`querySelector` first, then the host loop);
* if `el` is an `iframe`, access `el.contentDocument || el.contentWindow.document`;
  for a cross-origin frame that access throws and the `catch` block skips to
  the next element; for an accessible document, recurse with the full search;
* otherwise continue with the remaining elements. -/
def searchHostsNode (selector : String) : Node → Option Node
  | Node.mk t _a _sels _tx _oh ch sh fr =>
    match (match sh with
           | some sr =>
             match qsList selector sr with
             | some e => some e
             | none => searchHostsList selector sr
           | none => none) with
    | some e => some e
    | none =>
      match (if t == "iframe" then
               match fr with
               | Frame.crossOrigin => none
               | Frame.noFrame => none
               | Frame.sameOrigin frameDoc =>
                 match qsList selector frameDoc with
                 | some e => some e
                 | none => searchHostsList selector frameDoc
             else none) with
      | some e => some e
      | none => searchHostsList selector ch

/-- The loop of `findElementInShadowDOMAndIframes` over all elements of a
context, in document order. -/
def searchHostsList (selector : String) : List Node → Option Node
  | [] => none
  | n :: rest =>
    match searchHostsNode selector n with
    | some e => some e
    | none => searchHostsList selector rest
end

/-- The in-page helper `findElementInShadowDOMAndIframes(parent, selector)`
shared verbatim by `is_element_present` and `perform_javascript_click`: try
`parent.querySelector(selector)` first, then search inside the shadow roots
and (same-origin) iframes of every element of the context. -/
def findElementInShadowDOMAndIframes (selector : String) (parent : List Node) :
    Option Node :=
  match qsList selector parent with
  | some e => some e
  | none => searchHostsList selector parent

/-- A Playwright page: the main-frame document plus the documents of the
frames listed by `page.frames` (the browser-side frame list that
`do_click.find_element_within_iframes` iterates over). -/
structure Page where
  doc : List Node
  frames : List (List Node)

/-- The loop `for frame in page.frames: element = await frame.query_selector(selector)`
of `do_click.find_element_within_iframes`: first frame whose document matches. -/
def framesQuery (selector : String) : List (List Node) → Option Node
  | [] => none
  | f :: fs =>
    match qsList selector f with
    | some e => some e
    | none => framesQuery selector fs

/-- `do_click.find_element_within_iframes`: check the main page with
`page.query_selector`, and if not found iterate over all of `page.frames`. -/
def find_element_within_iframes (page : Page) (selector : String) : Option Node :=
  match qsList selector page.doc with
  | some element => some element
  | none => framesQuery selector page.frames

/-- `is_element_present(page, selector)`: `page.query_selector` on the regular
DOM first, and if that returns null, `page.evaluate` of the recursive
`findElementInShadowDOMAndIframes` script against the main document. -/
def is_element_present (page : Page) (selector : String) : Bool :=
  match qsList selector page.doc with
  | some _ => true
  | none => (findElementInShadowDOMAndIframes selector page.doc).isSome

/-- `is_element_present` with the page state threaded through each of its two
steps.  Both steps are DOM queries: `page.query_selector` and a
`page.evaluate` of a script that only calls `querySelector`,
`querySelectorAll`, reads `shadowRoot`/`contentDocument` and compares tag
names — neither mutates the page, so each step returns the page it was
given. -/
def is_element_present_steps (page : Page) (selector : String) : Bool × Page :=
  let step1 : Option Node × Page := (qsList selector page.doc, page)
  match step1.1 with
  | some _ => (true, step1.2)
  | none =>
    let step2 : Bool × Page :=
      ((findElementInShadowDOMAndIframes selector step1.2.doc).isSome, step1.2)
    (step2.1, step2.2)

/-- Python `str(x)` for an optional string: `None` prints as `"None"` inside
an f-string. -/
def pyStr : Option String → String
  | none => "None"
  | some s => s

/-- Python truthiness of an optional string (`if dom_changes_detected:`):
`None` and the empty string are falsy. -/
def pyTruthy : Option String → Bool
  | none => false
  | some s => !(s == "")

/-- The result dictionary of `do_click`: `summary_message` and
`detailed_message`.  The summary is an optional string because on the
scripted-click exception path `perform_javascript_click` returns Python
`None`, which is stored in the dictionary unchanged. -/
structure Outcome where
  summary_message : Option String
  detailed_message : String
deriving DecidableEq, Repr

/-- The exceptions the browser layer can throw at each step of the
interaction, plus the two click effects the claims observe.  `none` for a
fault field means that step succeeds; `some e` means it raises an exception
whose text is `e`.  `ariaAfter` is the value of the clicked element\x27s
`aria-expanded` attribute immediately after the in-page click. -/
structure World where
  resolveFault : Option String
  scrollFault : Option String
  visibilityFault : Option String
  tagFault : Option String
  outerHtmlFault : Option String
  valueAttrFault : Option String
  selectFault : Option String
  evalFault : Option String
  ariaAfter : Option String

/-- A world where every browser-layer step succeeds and `aria-expanded` is
absent after the click. -/
def calmWorld : World :=
  { resolveFault := none, scrollFault := none, visibilityFault := none,
    tagFault := none, outerHtmlFault := none, valueAttrFault := none,
    selectFault := none, evalFault := none, ariaAfter := none }

/-- Modelled from the spec: `hercules.utils.dom_helper.get_element_outer_html`
is imported by the click skill but its module is not among the sources; the
spec (§4.3 step 5) says this step captures the element\x27s "serialized outer
markup for diagnostic messaging".  We model it as returning the stored
serialized outer HTML of the element. -/
def get_element_outer_html (element : Node) : String :=
  element.outerHtml

/-- The not-found message of the in-page click script. -/
def js_not_found_message (selector : String) : String :=
  "perform_javascript_click: Element with selector " ++ (selector ++ " not found")

/-- The select-path message of the in-page click script (`value` is
`element.text`). -/
def js_select_message (value : String) : String :=
  "Select menu option: " ++ (value ++ " selected")

/-- The in-page click message when `aria-expanded` flipped from `"false"` to
`"true"` across the click. -/
def js_click_menu_message (selector : String) : String :=
  "Executed JavaScript Click on element with selector: " ++
    (selector ++ ". Very important: As a consequence, a menu has appeared where you may need to make further selection. Very important: Get all_fields DOM to complete the action.")

/-- The plain in-page click message. -/
def js_click_message (selector : String) : String :=
  "Executed JavaScript Click on element with selector: " ++ selector

/-- The string returned by the script evaluated by
`perform_javascript_click`: re-resolve the selector with
`findElementInShadowDOMAndIframes(document, selector)`; report not-found as a
string; for an `option` element set the parent\x27s value and report the
option text; otherwise record `aria-expanded`, click, and report whether a
menu appeared.  (Setting `element.target`, `parent.value` and dispatching the
events mutate the live DOM; the claims only observe the returned string, for
which the post-click `aria-expanded` value is supplied by `ariaAfter`.) -/
def js_click_result (ariaAfter : Option String) (doc : List Node)
    (selector : String) : String :=
  match findElementInShadowDOMAndIframes selector doc with
  | none => js_not_found_message selector
  | some element =>
    if element.tag == "option" then
      js_select_message element.text
    else
      let ariaExpandedBeforeClick := getAttribute element "aria-expanded"
      if ariaExpandedBeforeClick == some "false" && ariaAfter == some "true" then
        js_click_menu_message selector
      else
        js_click_message selector

/-- `perform_javascript_click(page, selector)`: evaluate the click script on
the page.  Its own `try`/`except` catches any exception from
`page.evaluate`, logs it, and falls off the end of the function — returning
Python `None` (`none`). -/
def perform_javascript_click (world : World) (page : Page) (selector : String) :
    Option String :=
  match world.evalFault with
  | some _ => none
  | none => some (js_click_result world.ariaAfter page.doc selector)

/-- A fallible browser-layer step: raises the fault if there is one. -/
def throwIfFault (fault : Option String) : Except String Unit :=
  match fault with
  | some e => Except.error e
  | none => Except.ok ()

/-- A best-effort step wrapped in `try: ... except Exception: pass`
(`scroll_into_view_if_needed` and `wait_for_element_state("visible")` in
`do_click`): any exception is swallowed and execution continues. -/
def tryBestEffort (fault : Option String) : Unit :=
  match throwIfFault fault with
  | Except.ok _ => ()
  | Except.error _ => ()

/-- The `raise ValueError(...)` message of `do_click` when
`find_element_within_iframes` returns null. -/
def notfound_message (selector : String) : String :=
  "Element with selector: \x22" ++ (selector ++ "\x22 not found")

/-- The failure message built in the `except` block of `do_click`. -/
def invalid_selector_message (selector : String) : String :=
  "Unable to click element with selector: \x22" ++
    (selector ++ "\x22 since the selector is invalid. Proceed by retrieving DOM again.")

/-- The outcome returned by the `except` block of `do_click`: the
invalid-selector message as summary, with `. Error: <e>` appended to form the
detailed message. -/
def failure_outcome (selector e : String) : Outcome :=
  { summary_message := some (invalid_selector_message selector),
    detailed_message := invalid_selector_message selector ++ (". Error: " ++ e) }

/-- The select-path summary of `do_click` (`element_value` is the `value`
attribute, which Python prints as `None` when absent). -/
def select_option_message (element_value : Option String) : String :=
  "Select menu option \x22" ++ (pyStr element_value ++ "\x22 selected")

/-- The body of the `try` block of `do_click`: resolve the element via
`find_element_within_iframes` (raising `ValueError` when null), best-effort
scroll and visibility wait, read the tag name and outer HTML, then either the
`option` select path or the scripted click.  `Except.error e` models an
exception with text `e` propagating out of the `try` block. -/
def do_click_body (world : World) (page : Page) (selector : String) :
    Except String Outcome :=
  match throwIfFault world.resolveFault with
  | Except.error e => Except.error e
  | Except.ok _ =>
    match find_element_within_iframes page selector with
    | none => Except.error (notfound_message selector)
    | some element =>
      let _ := tryBestEffort world.scrollFault
      let _ := tryBestEffort world.visibilityFault
      match throwIfFault world.tagFault with
      | Except.error e => Except.error e
      | Except.ok _ =>
        let element_tag_name := element.tag
        match throwIfFault world.outerHtmlFault with
        | Except.error e => Except.error e
        | Except.ok _ =>
          let element_outer_html := get_element_outer_html element
          if element_tag_name == "option" then
            match throwIfFault world.valueAttrFault with
            | Except.error e => Except.error e
            | Except.ok _ =>
              let element_value := getAttribute element "value"
              match throwIfFault world.selectFault with
              | Except.error e => Except.error e
              | Except.ok _ =>
                Except.ok
                  { summary_message := some (select_option_message element_value),
                    detailed_message := select_option_message element_value ++
                      (". The select element\x27s outer HTML is: " ++
                        (element_outer_html ++ ".")) }
          else
            let msg := perform_javascript_click world page selector
            Except.ok
              { summary_message := msg,
                detailed_message := pyStr msg ++
                  (" The clicked element\x27s outer HTML is: " ++
                    (element_outer_html ++ ".")) }

/-- `do_click(page, selector, wait_before_execution)`: sleep for the pre-delay
(time has no observable effect in the model), run the `try` block, and catch
every exception at the top level, turning it into the invalid-selector
failure outcome with the error text appended. -/
def do_click (world : World) (page : Page) (selector : String)
    (wait_before_execution : ℚ) : Outcome :=
  let _ := wait_before_execution
  match do_click_body world page selector with
  | Except.ok outcome => outcome
  | Except.error e => failure_outcome selector e

/-- The steps of the top-level `click`, in source order, recorded so that
theorems can state which collaborator calls happened. -/
inductive ClickAction : Type where
  | addEventTelemetry : ClickAction
  | getCurrentPage : ClickAction
  | takeScreenshotStart : ClickAction
  | highlightElement : ClickAction
  | subscribeObserver : ClickAction
  | runDoClick : ClickAction
  | settleSleep500 : ClickAction
  | unsubscribeObserver : ClickAction
  | takeScreenshotEnd : ClickAction
  | notifyUser : ClickAction
deriving DecidableEq, Repr

/-- The environment of the top-level `click`.  `current_page` is what the
browser session manager\x27s `get_current_page()` returns.  `dom_mutation` is
modelled from the spec: the `dom_mutation_observer` module
(subscribe/unsubscribe) is not among the sources; the spec (§4.4, §3
MutationSignal) describes the subscription as delivering at most one optional
change-description string while the listener is registered — i.e. during the
click sequence and the 500 ms settle window (`asyncio.sleep(0.5)`) — which the
callback stores in `dom_changes_detected`. -/
structure ClickWorld where
  current_page : Option Page
  world : World
  dom_mutation : Option String

/-- The annotated message returned by `click` when `dom_changes_detected` is
truthy. -/
def success_with_changes_message (summary changes : Option String)
    (selector : String) : String :=
  "Success: " ++ (pyStr summary ++
    (".\n As a consequence of this action, new elements have appeared in view: " ++
      (pyStr changes ++
        (". This means that the action to click " ++
          (selector ++
            " is not yet executed and needs further interaction. Get all_fields DOM to complete the interaction.")))))

/-- The `ValueError` message raised by `click` when there is no active page. -/
def no_active_page_message : String :=
  "No active page found. OpenURL command opens a new page."

/-- The top-level `click(selector, wait_before_execution)`: telemetry event,
fetch the current page (raising `ValueError` when it is null), screenshot,
highlight, subscribe the mutation callback, run `do_click`, sleep 500 ms,
unsubscribe, screenshot, notify; then return the annotated message if DOM
changes were detected (Python truthiness) and the plain detailed message
otherwise.  The result is paired with the list of performed steps;
`Except.error` models the raised `ValueError`. -/
def click (cw : ClickWorld) (selector : String) (wait_before_execution : ℚ) :
    Except String String × List ClickAction :=
  let t0 : List ClickAction :=
    [ClickAction.addEventTelemetry, ClickAction.getCurrentPage]
  match cw.current_page with
  | none => (Except.error no_active_page_message, t0)
  | some page =>
    let result := do_click cw.world page selector wait_before_execution
    let dom_changes_detected := cw.dom_mutation
    let trace := t0 ++
      [ClickAction.takeScreenshotStart, ClickAction.highlightElement,
       ClickAction.subscribeObserver, ClickAction.runDoClick,
       ClickAction.settleSleep500, ClickAction.unsubscribeObserver,
       ClickAction.takeScreenshotEnd, ClickAction.notifyUser]
    if pyTruthy dom_changes_detected then
      (Except.ok (success_with_changes_message result.summary_message
        dom_changes_detected selector), trace)
    else
      (Except.ok result.detailed_message, trace)

/-! ### Telemetry event collector (`testzeus_hercules/telemetry.py`) -/

/-- The `EventType` enum. -/
inductive EventType : Type where
  | INTERACTION : EventType
  | STEP : EventType
  | TOOL : EventType
  | ASSERT : EventType
  | RUN : EventType
  | DETECTION : EventType
  | CONFIG : EventType
deriving DecidableEq, Repr

/-- `EventType.value`: the string value of each enum member. -/
def EventType.value : EventType → String
  | EventType.INTERACTION => "interaction"
  | EventType.STEP => "step"
  | EventType.TOOL => "tool"
  | EventType.ASSERT => "assert"
  | EventType.RUN => "run"
  | EventType.DETECTION => "detection"
  | EventType.CONFIG => "config"

/-- The `EventData` pydantic model: an optional detail string and optional
extra data (modelled as a string map, the shape `model_dump` serialises). -/
structure EventData where
  detail : Option String
  additional_data : Option (List (String × String))
deriving DecidableEq, Repr

/-- One entry of a bucket\x27s `events` list: a timestamp
(`datetime.now().isoformat()`, supplied as data here) and the dumped event
data. -/
structure TelemetryEvent where
  timestamp : String
  data : EventData
deriving DecidableEq, Repr

/-- One bucket of the collector: `{"events": [...], "event_count": n}`. -/
structure Bucket where
  events : List TelemetryEvent
  event_count : Nat
deriving DecidableEq, Repr

/-- The global `event_collector` dictionary: installation id, insertion-ordered
buckets keyed by the event-type value string, and the start time. -/
structure EventCollector where
  installation_id : String
  buckets : List (String × Bucket)
  event_start_time : String
deriving DecidableEq, Repr

/-- Store a bucket under a key in the insertion-ordered dictionary: replace in
place when the key exists, append at the end otherwise (Python dict
semantics for `buckets[key] = ...`). -/
def bucketsUpsert (key : String) (b : Bucket) :
    List (String × Bucket) → List (String × Bucket)
  | [] => [(key, b)]
  | (k, v) :: rest =>
    if k == key then (k, b) :: rest else (k, v) :: bucketsUpsert key b rest

/-- `add_event(event_type, event_data)`: a no-op when telemetry is disabled
(`ENABLE_TELEMETRY`, a module-level flag read from the environment, passed
here as `telemetryEnabled`); otherwise build the event, create the bucket for
`event_type.value` if missing, append the event and increment the count.  The
timestamp is supplied as data. -/
def add_event (telemetryEnabled : Bool) (timestamp : String)
    (event_type : EventType) (event_data : EventData) (c : EventCollector) :
    EventCollector :=
  if !telemetryEnabled then c
  else
    let event : TelemetryEvent := { timestamp := timestamp, data := event_data }
    let bucket :=
      match List.lookup event_type.value c.buckets with
      | some b => b
      | none => { events := [], event_count := 0 }
    { c with
      buckets := bucketsUpsert event_type.value
        { events := bucket.events ++ [event],
          event_count := bucket.event_count + 1 } c.buckets }

/-- One `add_event` call with all its arguments, for stating facts about call
sequences. -/
structure AddEventCall where
  telemetryEnabled : Bool
  timestamp : String
  event_type : EventType
  event_data : EventData

/-- Run a sequence of `add_event` calls against a collector. -/
def runAddEvents (calls : List AddEventCall) (c : EventCollector) :
    EventCollector :=
  calls.foldl
    (fun acc call =>
      add_event call.telemetryEnabled call.timestamp call.event_type
        call.event_data acc) c

/-- The bucket invariant of the collector: every bucket\x27s `event_count`
equals the length of its `events` list. -/
def CollectorWF (c : EventCollector) : Prop :=
  ∀ p ∈ c.buckets, p.2.event_count = p.2.events.length

/-! ### Substring containment (used to state "the message contains ...") -/

/-- `startsWithChars pattern text`: the pattern is an initial segment of the
text. -/
def startsWithChars : List Char → List Char → Bool
  | [], _ => true
  | _ :: _, [] => false
  | p :: ps, c :: cs => p == c && startsWithChars ps cs

/-- `containsChars text pattern`: the pattern occurs contiguously somewhere in
the text. -/
def containsChars : List Char → List Char → Bool
  | [], pattern => startsWithChars pattern []
  | c :: cs, pattern => startsWithChars pattern (c :: cs) || containsChars cs pattern

/-- `strContains text pattern`: `pattern` is a contiguous substring of
`text`. -/
def strContains (text pattern : String) : Bool :=
  containsChars text.data pattern.data

/-! ### Pruning cross-origin frames (used to state the cross-origin claim) -/

mutual
/-- Replace every cross-origin frame in a node by an empty (inaccessible)
one, leaving everything else intact. -/
def pruneNode : Node → Node
  | Node.mk t a sels tx oh ch sh fr =>
    Node.mk t a sels tx oh (pruneList ch) (pruneShadow sh) (pruneFrame fr)

/-- `pruneNode` under the optional shadow root. -/
def pruneShadow : Option (List Node) → Option (List Node)
  | none => none
  | some sr => some (pruneList sr)

/-- `pruneNode` over a list of nodes. -/
def pruneList : List Node → List Node
  | [] => []
  | n :: rest => pruneNode n :: pruneList rest

/-- Cross-origin frames become frame-less; same-origin documents are pruned
recursively. -/
def pruneFrame : Frame → Frame
  | Frame.noFrame => Frame.noFrame
  | Frame.crossOrigin => Frame.noFrame
  | Frame.sameOrigin doc => Frame.sameOrigin (pruneList doc)
end

/-- Pruning a page: prune the main document and every frame document. -/
def prunePage (page : Page) : Page :=
  { doc := pruneList page.doc, frames := page.frames.map pruneList }

/-- The bucket currently stored for a key, or the fresh empty bucket that
`add_event` creates when the key is missing. -/
def bucketGet (key : String) (c : EventCollector) : Bucket :=
  match List.lookup key c.buckets with
  | some b => b
  | none => { events := [], event_count := 0 }

/-! ### Concrete fixtures used by witnesses and counterexamples -/

/-- A node matched only by the selector `#t`, living inside a shadow root. -/
def shadowTarget : Node :=
  Node.mk "span" [] ["#t"] "" "<span></span>" [] none Frame.noFrame

/-- A shadow host whose shadow root contains `shadowTarget`; the host itself
matches no selector. -/
def shadowHost : Node :=
  Node.mk "div" [] [] "" "<div></div>" [] (some [shadowTarget]) Frame.noFrame

/-- A page on which `#t` matches only inside a shadow root. -/
def pageShadow : Page := { doc := [shadowHost], frames := [] }

/-- A plain button in the light DOM, matched by `#b`, with no
`aria-expanded` attribute. -/
def btnNode : Node :=
  Node.mk "button" [("id", "b")] ["#b"] "" "<button id=b></button>" [] none
    Frame.noFrame

/-- A page whose main document holds just `btnNode`. -/
def pageBtn : Page := { doc := [btnNode], frames := [] }

/-- An `option` element with value attribute `opt1`, matched by `#o`. -/
def optNode : Node :=
  Node.mk "option" [("value", "opt1")] ["#o"] "Option 1"
    "<option>Option 1</option>" [] none Frame.noFrame

/-- A page whose main document holds just `optNode`. -/
def pageOpt : Page := { doc := [optNode], frames := [] }

/-- A disclosure button whose `aria-expanded` attribute is `false` before the
click, matched by `#m`. -/
def menuBtn : Node :=
  Node.mk "button" [("aria-expanded", "false")] ["#m"]
    "" "<button aria-expanded=false></button>" [] none Frame.noFrame

/-- A page whose main document holds just `menuBtn`. -/
def pageMenu : Page := { doc := [menuBtn], frames := [] }

/-- A page with no nodes at all. -/
def pageEmpty : Page := { doc := [], frames := [] }

/-- A world where only the scroll-into-view step throws. -/
def scrollFaultWorld : World :=
  { calmWorld with scrollFault := some "Timeout 200ms exceeded" }

/-- A world where element resolution throws. -/
def resolveFaultWorld : World :=
  { calmWorld with resolveFault := some "boom" }

/-- A world where the click flips `aria-expanded` to `true`. -/
def ariaWorld : World := { calmWorld with ariaAfter := some "true" }

/-- A click environment with no active page. -/
def cwNoPage : ClickWorld :=
  { current_page := none, world := calmWorld, dom_mutation := none }

/-- A click environment on the button page where the mutation observer
delivered an empty change description during the settle window. -/
def cwEmptySignal : ClickWorld :=
  { current_page := some pageBtn, world := calmWorld, dom_mutation := some "" }

/-- A click environment on the button page where the mutation observer
delivered the change description `changed` during the settle window. -/
def cwChanged : ClickWorld :=
  { current_page := some pageBtn, world := calmWorld,
    dom_mutation := some "changed" }

/-- A fresh event collector with no buckets. -/
def collInit : EventCollector :=
  { installation_id := "install-1", buckets := [],
    event_start_time := "2026-10-12T00:00:00" }

/-- The event data recorded by `click`. -/
def edClick : EventData := { detail := some "click", additional_data := none }

/-! ## Helper lemmas -/

theorem strData_append (a b : String) : (a ++ b).data = a.data ++ b.data := rfl

theorem startsWithChars_append (p rest : List Char) :
    startsWithChars p (p ++ rest) = true := by
  induction p with
  | nil => rfl
  | cons c cs ih => simp [startsWithChars, ih]

theorem containsChars_nil_pat (t : List Char) : containsChars t [] = true := by
  induction t with
  | nil => rfl
  | cons c cs ih => simp [containsChars, startsWithChars]

theorem containsChars_append_left (p rest : List Char) :
    containsChars (p ++ rest) p = true := by
  cases p with
  | nil => exact containsChars_nil_pat rest
  | cons c cs =>
    simp only [List.cons_append, containsChars, Bool.or_eq_true]
    exact Or.inl (startsWithChars_append (c :: cs) rest)

theorem containsChars_append_of_right (s t p : List Char)
    (h : containsChars t p = true) : containsChars (s ++ t) p = true := by
  induction s with
  | nil => simpa using h
  | cons c cs ih => simp [containsChars, ih]

/-- A string contains every prefix of itself (`p` occurs in `p ++ t`). -/
theorem strContains_left_append (p t : String) :
    strContains (p ++ t) p = true := by
  unfold strContains
  rw [strData_append]
  exact containsChars_append_left p.data t.data

/-- Containment is preserved by prepending (`p` occurring in `t` occurs in
`s ++ t`). -/
theorem strContains_append_right (s t p : String)
    (h : strContains t p = true) : strContains (s ++ t) p = true := by
  unfold strContains at h ⊢
  rw [strData_append]
  exact containsChars_append_of_right s.data t.data p.data h

theorem pruneNode_tag (n : Node) : (pruneNode n).tag = n.tag := by
  cases n with
  | mk t a sels tx oh ch sh fr => rfl

theorem pruneNode_text (n : Node) : (pruneNode n).text = n.text := by
  cases n with
  | mk t a sels tx oh ch sh fr => rfl

theorem pruneNode_outerHtml (n : Node) : (pruneNode n).outerHtml = n.outerHtml := by
  cases n with
  | mk t a sels tx oh ch sh fr => rfl

theorem pruneNode_attrs (n : Node) : (pruneNode n).attrs = n.attrs := by
  cases n with
  | mk t a sels tx oh ch sh fr => rfl

theorem getAttribute_pruneNode (n : Node) (name : String) :
    getAttribute (pruneNode n) name = getAttribute n name := by
  unfold getAttribute
  rw [pruneNode_attrs]

/-- Mapping `pruneNode` commutes with the `match option with some/none`
fallback pattern used throughout the search. -/
theorem matchOption_prune (X Y : Option Node) :
    (match Option.map pruneNode X with
     | some e => some e
     | none => Option.map pruneNode Y) =
    Option.map pruneNode (match X with
     | some e => some e
     | none => Y) := by
  cases X <;> rfl

mutual
theorem qsNode_prune (selector : String) (n : Node) :
    qsNode selector (pruneNode n) = Option.map pruneNode (qsNode selector n) := by
  cases n with
  | mk t a sels tx oh ch sh fr =>
    simp only [pruneNode, qsNode]
    by_cases hc : selector ∈ sels
    · simp [hc, pruneNode]
    · simp [hc, qsList_prune selector ch]

theorem qsList_prune (selector : String) (ns : List Node) :
    qsList selector (pruneList ns) = Option.map pruneNode (qsList selector ns) := by
  cases ns with
  | nil => rfl
  | cons n rest =>
    simp only [pruneList, qsList, qsNode_prune selector n]
    cases qsNode selector n with
    | some e => rfl
    | none => simpa using qsList_prune selector rest
end

/-- One host-search step commutes with pruning, given that the list search
commutes on every strictly smaller list. -/
theorem searchHostsNode_prune_of (selector : String) (n : Node)
    (hih : ∀ ns : List Node, sizeOf ns < sizeOf n →
      searchHostsList selector (pruneList ns) =
        Option.map pruneNode (searchHostsList selector ns)) :
    searchHostsNode selector (pruneNode n) =
      Option.map pruneNode (searchHostsNode selector n) := by
  cases n with
  | mk t a sels tx oh ch sh fr =>
    cases sh with
    | none =>
      cases fr with
      | noFrame =>
        simp only [pruneNode, pruneShadow, pruneFrame, searchHostsNode]
        cases ht : t == "iframe" with
        | false =>
          simp only [ht, Bool.false_eq_true, if_false]
          exact hih ch (by simp; omega)
        | true =>
          simp only [ht, if_true]
          exact hih ch (by simp; omega)
      | crossOrigin =>
        simp only [pruneNode, pruneShadow, pruneFrame, searchHostsNode]
        cases ht : t == "iframe" with
        | false =>
          simp only [ht, Bool.false_eq_true, if_false]
          exact hih ch (by simp; omega)
        | true =>
          simp only [ht, if_true]
          exact hih ch (by simp; omega)
      | sameOrigin frameDoc =>
        simp only [pruneNode, pruneShadow, pruneFrame, searchHostsNode]
        cases ht : t == "iframe" with
        | false =>
          simp only [ht, Bool.false_eq_true, if_false]
          exact hih ch (by simp; omega)
        | true =>
          simp only [ht, if_true]
          rw [qsList_prune selector frameDoc, hih frameDoc (by simp; omega)]
          cases hq : qsList selector frameDoc with
          | some e => simp [hq]
          | none =>
            simp only [hq, Option.map_none']
            cases hs : searchHostsList selector frameDoc with
            | some e => simp [hs]
            | none =>
              simp only [hs, Option.map_none']
              exact hih ch (by simp; omega)
    | some sr =>
      have hsr : searchHostsList selector (pruneList sr) =
          Option.map pruneNode (searchHostsList selector sr) :=
        hih sr (by simp; omega)
      cases fr with
      | noFrame =>
        simp only [pruneNode, pruneShadow, pruneFrame, searchHostsNode]
        rw [qsList_prune selector sr, hsr]
        cases hq0 : qsList selector sr with
        | some e => simp [hq0]
        | none =>
          simp only [hq0, Option.map_none']
          cases hs0 : searchHostsList selector sr with
          | some e => simp [hs0]
          | none =>
            simp only [hs0, Option.map_none']
            cases ht : t == "iframe" with
            | false =>
              simp only [ht, Bool.false_eq_true, if_false]
              exact hih ch (by simp; omega)
            | true =>
              simp only [ht, if_true]
              exact hih ch (by simp; omega)
      | crossOrigin =>
        simp only [pruneNode, pruneShadow, pruneFrame, searchHostsNode]
        rw [qsList_prune selector sr, hsr]
        cases hq0 : qsList selector sr with
        | some e => simp [hq0]
        | none =>
          simp only [hq0, Option.map_none']
          cases hs0 : searchHostsList selector sr with
          | some e => simp [hs0]
          | none =>
            simp only [hs0, Option.map_none']
            cases ht : t == "iframe" with
            | false =>
              simp only [ht, Bool.false_eq_true, if_false]
              exact hih ch (by simp; omega)
            | true =>
              simp only [ht, if_true]
              exact hih ch (by simp; omega)
      | sameOrigin frameDoc =>
        simp only [pruneNode, pruneShadow, pruneFrame, searchHostsNode]
        rw [qsList_prune selector sr, hsr]
        cases hq0 : qsList selector sr with
        | some e => simp [hq0]
        | none =>
          simp only [hq0, Option.map_none']
          cases hs0 : searchHostsList selector sr with
          | some e => simp [hs0]
          | none =>
            simp only [hs0, Option.map_none']
            cases ht : t == "iframe" with
            | false =>
              simp only [ht, Bool.false_eq_true, if_false]
              exact hih ch (by simp; omega)
            | true =>
              simp only [ht, if_true]
              rw [qsList_prune selector frameDoc, hih frameDoc (by simp; omega)]
              cases hq : qsList selector frameDoc with
              | some e => simp [hq]
              | none =>
                simp only [hq, Option.map_none']
                cases hs : searchHostsList selector frameDoc with
                | some e => simp [hs]
                | none =>
                  simp only [hs, Option.map_none']
                  exact hih ch (by simp; omega)

/-- Fuel-bounded form of `searchHostsList_prune`, by strong induction on the
size of the list. -/
theorem searchHostsList_prune_aux (selector : String) :
    ∀ (k : Nat) (ns : List Node), sizeOf ns ≤ k →
      searchHostsList selector (pruneList ns) =
        Option.map pruneNode (searchHostsList selector ns) := by
  intro k
  induction k with
  | zero =>
    intro ns h
    cases ns with
    | nil => simp at h
    | cons n rest => simp at h
  | succ k ih =>
    intro ns h
    cases ns with
    | nil => rfl
    | cons n rest =>
      have hsz : sizeOf n + sizeOf rest + 1 ≤ k + 1 := by
        simp at h
        omega
      have hnode : searchHostsNode selector (pruneNode n) =
          Option.map pruneNode (searchHostsNode selector n) := by
        apply searchHostsNode_prune_of
        intro ms hms
        apply ih
        omega
      simp only [pruneList, searchHostsList, hnode]
      cases searchHostsNode selector n with
      | some e => rfl
      | none =>
        have : searchHostsList selector (pruneList rest) =
            Option.map pruneNode (searchHostsList selector rest) := by
          apply ih
          omega
        simpa using this

/-- The host search over a list of nodes commutes with pruning cross-origin
frames. -/
theorem searchHostsList_prune (selector : String) (ns : List Node) :
    searchHostsList selector (pruneList ns) =
      Option.map pruneNode (searchHostsList selector ns) :=
  searchHostsList_prune_aux selector (sizeOf ns) ns (Nat.le_refl _)

/-- The host search at a single node commutes with pruning cross-origin
frames. -/
theorem searchHostsNode_prune (selector : String) (n : Node) :
    searchHostsNode selector (pruneNode n) =
      Option.map pruneNode (searchHostsNode selector n) :=
  searchHostsNode_prune_of selector n
    (fun ns _ => searchHostsList_prune selector ns)

/-- The full in-page search commutes with pruning cross-origin frames. -/
theorem findElementInShadowDOMAndIframes_prune (selector : String)
    (parent : List Node) :
    findElementInShadowDOMAndIframes selector (pruneList parent) =
      Option.map pruneNode (findElementInShadowDOMAndIframes selector parent) := by
  unfold findElementInShadowDOMAndIframes
  rw [qsList_prune selector parent, searchHostsList_prune selector parent]
  exact matchOption_prune (qsList selector parent) (searchHostsList selector parent)

/-- `is_element_present` is unchanged when every cross-origin frame of the
page is replaced by an inaccessible empty one. -/
theorem is_element_present_prune (page : Page) (selector : String) :
    is_element_present (prunePage page) selector = is_element_present page selector := by
  unfold is_element_present prunePage
  simp only
  rw [qsList_prune selector page.doc]
  cases hq : qsList selector page.doc with
  | some e => simp [hq]
  | none =>
    simp only [hq, Option.map_none']
    rw [findElementInShadowDOMAndIframes_prune selector page.doc]
    cases findElementInShadowDOMAndIframes selector page.doc with
    | some e => rfl
    | none => rfl

/-- The in-page click script returns the same status string when every
cross-origin frame of the page is replaced by an inaccessible empty one. -/
theorem js_click_result_prune (ariaAfter : Option String) (doc : List Node)
    (selector : String) :
    js_click_result ariaAfter (pruneList doc) selector =
      js_click_result ariaAfter doc selector := by
  unfold js_click_result
  rw [findElementInShadowDOMAndIframes_prune selector doc]
  cases hf : findElementInShadowDOMAndIframes selector doc with
  | none => rfl
  | some el =>
    simp only [hf, Option.map_some']
    rw [pruneNode_tag el, pruneNode_text el, getAttribute_pruneNode el]

/-- `perform_javascript_click` is unchanged under pruning of cross-origin
frames. -/
theorem perform_javascript_click_prune (world : World) (page : Page)
    (selector : String) :
    perform_javascript_click world (prunePage page) selector =
      perform_javascript_click world page selector := by
  unfold perform_javascript_click prunePage
  cases world.evalFault with
  | some e => rfl
  | none =>
    simp only
    rw [js_click_result_prune world.ariaAfter page.doc selector]

theorem lookup_mem (k : String) (b : Bucket) (l : List (String × Bucket))
    (h : List.lookup k l = some b) : (k, b) ∈ l := by
  induction l with
  | nil => simp [List.lookup] at h
  | cons p rest ih =>
    cases p with
    | mk k1 b1 =>
      rw [List.lookup] at h
      cases hk : (k == k1) with
      | true =>
        rw [hk] at h
        simp at h
        subst h
        have : k = k1 := by
          have := hk
          simpa using this
        subst this
        exact List.mem_cons_self _ _
      | false =>
        rw [hk] at h
        exact List.mem_cons_of_mem _ (ih h)

theorem mem_bucketsUpsert (key : String) (b : Bucket)
    (l : List (String × Bucket)) (p : String × Bucket)
    (h : p ∈ bucketsUpsert key b l) : p = (key, b) ∨ p ∈ l := by
  induction l with
  | nil =>
    simp [bucketsUpsert] at h
    exact Or.inl h
  | cons q rest ih =>
    cases q with
    | mk k1 b1 =>
      by_cases hk : (k1 == key) = true
      · rw [bucketsUpsert, if_pos hk] at h
        rcases List.mem_cons.mp h with h1 | h2
        · left
          have : k1 = key := by simpa using hk
          rw [h1, this]
        · right
          exact List.mem_cons_of_mem _ h2
      · rw [bucketsUpsert, if_neg hk] at h
        rcases List.mem_cons.mp h with h1 | h2
        · right
          rw [h1]
          exact List.mem_cons_self _ _
        · rcases ih h2 with h3 | h4
          · exact Or.inl h3
          · exact Or.inr (List.mem_cons_of_mem _ h4)

theorem lookup_bucketsUpsert_self (key : String) (b : Bucket)
    (l : List (String × Bucket)) :
    List.lookup key (bucketsUpsert key b l) = some b := by
  induction l with
  | nil => simp [bucketsUpsert, List.lookup]
  | cons q rest ih =>
    cases q with
    | mk k1 b1 =>
      by_cases hk : (k1 == key) = true
      · rw [bucketsUpsert, if_pos hk]
        have : k1 = key := by simpa using hk
        subst this
        simp [List.lookup]
      · rw [bucketsUpsert, if_neg hk]
        rw [List.lookup]
        have : (key == k1) = false := by
          cases hkk : (key == k1) with
          | false => rfl
          | true =>
            exfalso
            apply hk
            have : key = k1 := by simpa using hkk
            simp [this]
        rw [this]
        exact ih

end Hercules



namespace Hercules

theorem find_element_within_iframes_none (page : Page) (selector : String)
    (h2 : qsList selector page.doc = none)
    (h3 : framesQuery selector page.frames = none) :
    find_element_within_iframes page selector = none := by
  simp [find_element_within_iframes, h2, h3]

theorem strContains_invalid_selector (selector : String) :
    strContains (invalid_selector_message selector) selector = true := by
  unfold invalid_selector_message
  exact strContains_append_right _ _ _ (strContains_left_append _ _)

theorem strContains_invalid_retrieve (selector : String) :
    strContains (invalid_selector_message selector)
      "Proceed by retrieving DOM again." = true := by
  unfold invalid_selector_message
  apply strContains_append_right
  apply strContains_append_right
  decide

end Hercules

namespace Hercules

/-- C1 (counterexample): on the concrete page whose only `#t` match lives
inside a shadow root, the presence check returns true but `do_click` does not
succeed: it returns the invalid-selector failure outcome, and the top-level
`click` relays that failure message.  This refutes the claim that the click
succeeds for shadow-root-only locators. -/
theorem c1_counterexample :
    is_element_present pageShadow "#t" = true ∧
    do_click calmWorld pageShadow "#t" 0 =
      failure_outcome "#t" (notfound_message "#t") ∧
    strContains (do_click calmWorld pageShadow "#t" 0).detailed_message
      "since the selector is invalid" = true ∧
    (click { current_page := some pageShadow, world := calmWorld,
              dom_mutation := none } "#t" 0).1 =
      Except.ok (failure_outcome "#t" (notfound_message "#t")).detailed_message := by
  refine ⟨by decide, by decide, by decide, by rfl⟩

/-- C1 (amended): for every locator that matches no node in the light DOM of
the main document or of any Playwright frame but is found by the in-page deep
search (in particular, a locator matching only inside a - possibly nested -
shadow root), `is_element_present` returns true, but `do_click` returns the
invalid-selector failure outcome, because `find_element_within_iframes`
searches only the main document and the frame list, never shadow roots, and
the scripted click that could find the element is never reached. -/
theorem c1_theorem (world : World) (page : Page) (selector : String) (w : ℚ)
    (h1 : world.resolveFault = none)
    (h2 : qsList selector page.doc = none)
    (h3 : framesQuery selector page.frames = none)
    (h4 : (findElementInShadowDOMAndIframes selector page.doc).isSome = true) :
    is_element_present page selector = true ∧
    do_click world page selector w =
      failure_outcome selector (notfound_message selector) := by
  constructor
  · simp [is_element_present, h2, h4]
  · simp [do_click, do_click_body, throwIfFault, h1,
      find_element_within_iframes_none page selector h2 h3]

/-- C1 (witness for the amended theorem) at the concrete shadow page. -/
theorem c1_witness :
    is_element_present pageShadow "#t" = true ∧
    do_click calmWorld pageShadow "#t" (3 : ℚ) =
      failure_outcome "#t" (notfound_message "#t") :=
  c1_theorem calmWorld pageShadow "#t" (3 : ℚ) rfl rfl rfl rfl

/-- C2: for every locator matching no node anywhere in the searchable tree
(main document, frames, and the shadow/iframe deep search), `do_click`
returns the failure outcome - not an exception - whose message contains the
literal locator string and instructs the caller to retrieve the DOM again
because the selector is presumed invalid. -/
theorem c2_theorem (world : World) (page : Page) (selector : String) (w : ℚ)
    (h1 : world.resolveFault = none)
    (h2 : qsList selector page.doc = none)
    (h3 : framesQuery selector page.frames = none)
    (h4 : findElementInShadowDOMAndIframes selector page.doc = none) :
    do_click world page selector w =
      failure_outcome selector (notfound_message selector) ∧
    strContains (invalid_selector_message selector) selector = true ∧
    strContains (invalid_selector_message selector)
      "Proceed by retrieving DOM again." = true := by
  refine ⟨?_, strContains_invalid_selector selector,
    strContains_invalid_retrieve selector⟩
  simp [do_click, do_click_body, throwIfFault, h1,
    find_element_within_iframes_none page selector h2 h3]

/-- C2 (witness) on the empty page. -/
theorem c2_witness :
    do_click calmWorld pageEmpty "#x" (0 : ℚ) =
      failure_outcome "#x" (notfound_message "#x") ∧
    strContains (invalid_selector_message "#x") "#x" = true ∧
    strContains (invalid_selector_message "#x")
      "Proceed by retrieving DOM again." = true :=
  c2_theorem calmWorld pageEmpty "#x" (0 : ℚ) rfl rfl rfl rfl

end Hercules

namespace Hercules

/-- C3 (counterexample): a mutation notification delivered during the settle
window whose captured change-description text is the empty string is falsy in
Python, so `click` returns the plain detailed message, which does not state
that the action is not yet executed.  This refutes the claim for
empty-text notifications. -/
theorem c3_counterexample :
    cwEmptySignal.dom_mutation = some "" ∧
    (click cwEmptySignal "#b" 0).1 =
      Except.ok (do_click calmWorld pageBtn "#b" 0).detailed_message ∧
    strContains (do_click calmWorld pageBtn "#b" 0).detailed_message
      "is not yet executed and needs further interaction" = false := by
  refine ⟨rfl, rfl, by decide⟩

/-- C3 (amended): on an open page, if a non-empty mutation notification is
delivered while the listener is subscribed (the click sequence plus the
500 ms settle window), `click` returns the annotated message, which contains
the captured change description and states that the action is not yet
executed; if no notification arrives - or the delivered description is the
empty string, which Python truthiness conflates with absence - the returned
string is exactly the detailed message produced by `do_click`, unchanged. -/
theorem c3_theorem (cw : ClickWorld) (selector : String) (w : ℚ) (page : Page)
    (hp : cw.current_page = some page) :
    (∀ s : String, cw.dom_mutation = some s → s ≠ "" →
      (click cw selector w).1 = Except.ok
        (success_with_changes_message
          (do_click cw.world page selector w).summary_message (some s) selector) ∧
      strContains (success_with_changes_message
          (do_click cw.world page selector w).summary_message (some s) selector)
        s = true ∧
      strContains (success_with_changes_message
          (do_click cw.world page selector w).summary_message (some s) selector)
        "is not yet executed and needs further interaction" = true) ∧
    (pyTruthy cw.dom_mutation = false →
      (click cw selector w).1 =
        Except.ok (do_click cw.world page selector w).detailed_message) := by
  constructor
  · intro s hs hne
    have htru : pyTruthy cw.dom_mutation = true := by
      simp [pyTruthy, hs, hne]
    refine ⟨?_, ?_, ?_⟩
    · simp [click, hp, hs, pyTruthy, hne]
    · unfold success_with_changes_message
      apply strContains_append_right
      apply strContains_append_right
      apply strContains_append_right
      simp only [pyStr]
      exact strContains_left_append _ _
    · unfold success_with_changes_message
      apply strContains_append_right
      apply strContains_append_right
      apply strContains_append_right
      apply strContains_append_right
      apply strContains_append_right
      apply strContains_append_right
      decide
  · intro hfalse
    simp [click, hp, hfalse]

/-- C3 (witness for the amended theorem) with a non-empty and with an absent
notification. -/
theorem c3_witness :
    (click cwChanged "#b" 0).1 = Except.ok
      (success_with_changes_message
        (do_click cwChanged.world pageBtn "#b" 0).summary_message
        (some "changed") "#b") ∧
    strContains (success_with_changes_message
        (do_click cwChanged.world pageBtn "#b" 0).summary_message
        (some "changed") "#b") "changed" = true ∧
    strContains (success_with_changes_message
        (do_click cwChanged.world pageBtn "#b" 0).summary_message
        (some "changed") "#b")
      "is not yet executed and needs further interaction" = true :=
  (c3_theorem cwChanged "#b" 0 pageBtn rfl).1 "changed" rfl (by decide)

end Hercules

namespace Hercules

/-- C4 (counterexample): an exception thrown during the scroll-into-view step
is swallowed by the inner handler, execution continues, and `do_click`
returns the ordinary scripted-click success outcome: it is not the
invalid-selector failure outcome and the error text is nowhere in the
detailed message.  This refutes the claim that any exception during
scrolling yields a failure outcome with the error text appended. -/
theorem c4_counterexample :
    scrollFaultWorld.scrollFault = some "Timeout 200ms exceeded" ∧
    do_click scrollFaultWorld pageBtn "#b" 0 =
      { summary_message := some (js_click_message "#b"),
        detailed_message := js_click_message "#b" ++
          (" The clicked element\x27s outer HTML is: " ++
            ("<button id=b></button>" ++ ".")) } ∧
    strContains (do_click scrollFaultWorld pageBtn "#b" 0).detailed_message
      "Timeout 200ms exceeded" = false ∧
    do_click scrollFaultWorld pageBtn "#b" 0 ≠
      failure_outcome "#b" "Timeout 200ms exceeded" := by
  refine ⟨rfl, by decide, by decide, by decide⟩

/-- C4 (amended): every exception inside `do_click` is caught and `do_click`
always returns an outcome, but the handling differs by step: any exception
escaping the `try` body is caught at the top level and yields the
invalid-selector failure outcome with the error text appended - this covers
resolution, tag reading, outer-HTML capture, and the two select-path steps;
exceptions of the scroll and visibility-wait steps are swallowed by their own
inner handlers and do not affect the outcome at all; an exception of the
scripted click is caught inside `perform_javascript_click`, which returns
Python None, so `do_click` returns an outcome whose summary is None and
whose detailed message starts with `None` and does not carry the error
text. -/
theorem c4_theorem (world : World) (page : Page) (selector : String) (w : ℚ) :
    (∀ e : String, do_click_body world page selector = Except.error e →
      do_click world page selector w = failure_outcome selector e) ∧
    (∀ e : String, world.resolveFault = some e →
      do_click world page selector w = failure_outcome selector e) ∧
    (∀ (e : String) (el : Node), world.resolveFault = none →
      find_element_within_iframes page selector = some el →
      world.tagFault = some e →
      do_click world page selector w = failure_outcome selector e) ∧
    (∀ (e : String) (el : Node), world.resolveFault = none →
      find_element_within_iframes page selector = some el →
      world.tagFault = none → world.outerHtmlFault = some e →
      do_click world page selector w = failure_outcome selector e) ∧
    (∀ (e : String) (el : Node), world.resolveFault = none →
      find_element_within_iframes page selector = some el →
      world.tagFault = none → world.outerHtmlFault = none →
      el.tag = "option" → world.valueAttrFault = some e →
      do_click world page selector w = failure_outcome selector e) ∧
    (∀ (e : String) (el : Node), world.resolveFault = none →
      find_element_within_iframes page selector = some el →
      world.tagFault = none → world.outerHtmlFault = none →
      el.tag = "option" → world.valueAttrFault = none →
      world.selectFault = some e →
      do_click world page selector w = failure_outcome selector e) ∧
    (∀ sf vf : Option String,
      do_click { world with scrollFault := sf, visibilityFault := vf }
        page selector w = do_click world page selector w) ∧
    (∀ (e : String) (el : Node), world.resolveFault = none →
      find_element_within_iframes page selector = some el →
      world.tagFault = none → world.outerHtmlFault = none →
      (el.tag == "option") = false → world.evalFault = some e →
      do_click world page selector w =
        { summary_message := none,
          detailed_message := "None" ++
            (" The clicked element\x27s outer HTML is: " ++
              (el.outerHtml ++ ".")) }) := by
  refine ⟨?_, ?_, ?_, ?_, ?_, ?_, ?_, ?_⟩
  · intro e he
    simp [do_click, he]
  · intro e he
    simp [do_click, do_click_body, throwIfFault, he]
  · intro e el h1 h2 h3
    simp [do_click, do_click_body, throwIfFault, h1, h2, h3]
  · intro e el h1 h2 h3 h4
    simp [do_click, do_click_body, throwIfFault, h1, h2, h3, h4]
  · intro e el h1 h2 h3 h4 h5 h6
    simp [do_click, do_click_body, throwIfFault, h1, h2, h3, h4, h5, h6]
  · intro e el h1 h2 h3 h4 h5 h6 h7
    simp [do_click, do_click_body, throwIfFault, h1, h2, h3, h4, h5, h6, h7]
  · intro sf vf
    rfl
  · intro e el h1 h2 h3 h4 h5 h6
    simp [do_click, do_click_body, throwIfFault, perform_javascript_click,
      get_element_outer_html, pyStr, h1, h2, h3, h4, h5, h6]

/-- C4 (witness for the amended theorem): a resolution exception at a
concrete input is converted into the failure outcome with the error text
appended. -/
theorem c4_witness :
    do_click resolveFaultWorld pageBtn "#b" (0 : ℚ) =
      failure_outcome "#b" "boom" :=
  (c4_theorem resolveFaultWorld pageBtn "#b" (0 : ℚ)).2.1 "boom" rfl

end Hercules

namespace Hercules

/-- C5: for every resolved element whose tag is `option` (with the
browser-layer steps of the select path succeeding), `do_click` performs the
select path and returns that outcome immediately; its messages contain the
option\x27s value, and the result is independent of the scripted-click
components of the world (`evalFault`, `ariaAfter`), i.e. the scripted click
fallback is never invoked for such an element. -/
theorem c5_theorem (world : World) (page : Page) (selector : String)
    (el : Node) (v : String) (w : ℚ)
    (h1 : world.resolveFault = none)
    (h2 : find_element_within_iframes page selector = some el)
    (h3 : world.tagFault = none)
    (h4 : world.outerHtmlFault = none)
    (h5 : el.tag = "option")
    (h6 : world.valueAttrFault = none)
    (h7 : getAttribute el "value" = some v)
    (h8 : world.selectFault = none) :
    do_click world page selector w =
      { summary_message := some (select_option_message (some v)),
        detailed_message := select_option_message (some v) ++
          (". The select element\x27s outer HTML is: " ++
            (el.outerHtml ++ ".")) } ∧
    strContains (select_option_message (some v)) v = true ∧
    (∀ ef aa : Option String,
      do_click { world with evalFault := ef, ariaAfter := aa }
        page selector w = do_click world page selector w) := by
  refine ⟨?_, ?_, ?_⟩
  · simp [do_click, do_click_body, throwIfFault, get_element_outer_html,
      h1, h2, h3, h4, h5, h6, h7, h8]
  · unfold select_option_message
    apply strContains_append_right
    simp only [pyStr]
    exact strContains_left_append _ _
  · intro ef aa
    simp [do_click, do_click_body, throwIfFault, get_element_outer_html,
      h1, h2, h3, h4, h5, h6, h7, h8]

/-- C5 (witness) on the concrete option page. -/
theorem c5_witness :
    do_click calmWorld pageOpt "#o" (0 : ℚ) =
      { summary_message := some (select_option_message (some "opt1")),
        detailed_message := select_option_message (some "opt1") ++
          (". The select element\x27s outer HTML is: " ++
            ("<option>Option 1</option>" ++ ".")) } ∧
    strContains (select_option_message (some "opt1")) "opt1" = true :=
  ⟨((c5_theorem calmWorld pageOpt "#o" optNode "opt1" (0 : ℚ)
      rfl rfl rfl rfl rfl rfl rfl rfl).1),
   ((c5_theorem calmWorld pageOpt "#o" optNode "opt1" (0 : ℚ)
      rfl rfl rfl rfl rfl rfl rfl rfl).2.1)⟩

/-- C6: in the scripted click path (element found by the in-page search, not
an `option`, script evaluation succeeding), if the element\x27s
`aria-expanded` attribute is `false` immediately before the click and `true`
immediately after it, the status string returned by
`perform_javascript_click` is the menu notice, which contains "a menu has
appeared"; otherwise it is the plain executed-click message. -/
theorem c6_theorem (world : World) (page : Page) (selector : String) (el : Node)
    (hev : world.evalFault = none)
    (hfind : findElementInShadowDOMAndIframes selector page.doc = some el)
    (hopt : (el.tag == "option") = false) :
    ((getAttribute el "aria-expanded" == some "false" &&
        world.ariaAfter == some "true") = true →
      perform_javascript_click world page selector =
        some (js_click_menu_message selector) ∧
      strContains (js_click_menu_message selector) "a menu has appeared" = true) ∧
    ((getAttribute el "aria-expanded" == some "false" &&
        world.ariaAfter == some "true") = false →
      perform_javascript_click world page selector =
        some (js_click_message selector)) := by
  constructor
  · intro hcond
    refine ⟨?_, ?_⟩
    · simp [perform_javascript_click, hev, js_click_result, hfind, hopt, hcond]
    · unfold js_click_menu_message
      apply strContains_append_right
      apply strContains_append_right
      decide
  · intro hcond
    simp [perform_javascript_click, hev, js_click_result, hfind, hopt, hcond]

/-- C6 (witness) on the concrete disclosure-button page, in the flipped and
in the unflipped world. -/
theorem c6_witness :
    perform_javascript_click ariaWorld pageMenu "#m" =
      some (js_click_menu_message "#m") ∧
    strContains (js_click_menu_message "#m") "a menu has appeared" = true ∧
    perform_javascript_click calmWorld pageMenu "#m" =
      some (js_click_message "#m") :=
  ⟨((c6_theorem ariaWorld pageMenu "#m" menuBtn rfl rfl (by decide)).1
      (by decide)).1,
   ((c6_theorem ariaWorld pageMenu "#m" menuBtn rfl rfl (by decide)).1
      (by decide)).2,
   (c6_theorem calmWorld pageMenu "#m" menuBtn rfl rfl (by decide)).2
      (by decide)⟩

end Hercules

namespace Hercules

/-- C7: the cross-boundary searches used by `is_element_present` and
`perform_javascript_click` treat an inaccessible cross-origin iframe exactly
as an empty, frame-less element - the access failure is caught inside the
loop and traversal continues with the remaining elements - so replacing every
cross-origin frame of a page by an inaccessible empty one changes neither the
searches nor the results built from them. -/
theorem c7_theorem :
    (∀ (selector t : String) (a : List (String × String)) (sels : List String)
        (tx oh : String) (ch : List Node) (sh : Option (List Node)),
      searchHostsNode selector (Node.mk t a sels tx oh ch sh Frame.crossOrigin) =
        searchHostsNode selector (Node.mk t a sels tx oh ch sh Frame.noFrame)) ∧
    (∀ (selector : String) (parent : List Node),
      findElementInShadowDOMAndIframes selector (pruneList parent) =
        Option.map pruneNode (findElementInShadowDOMAndIframes selector parent)) ∧
    (∀ (page : Page) (selector : String),
      is_element_present (prunePage page) selector =
        is_element_present page selector) ∧
    (∀ (world : World) (page : Page) (selector : String),
      perform_javascript_click world (prunePage page) selector =
        perform_javascript_click world page selector) := by
  refine ⟨?_, findElementInShadowDOMAndIframes_prune,
    is_element_present_prune, perform_javascript_click_prune⟩
  intro selector t a sels tx oh ch sh
  cases sh <;> simp only [searchHostsNode]

/-- C8: `is_element_present` is a pure check - each of its two steps
(`page.query_selector`, and the `page.evaluate` of the read-only search
script) returns the page unchanged - so two immediately successive calls with
no intervening page change return the same boolean, and that boolean is the
one `is_element_present` computes. -/
theorem c8_theorem (page : Page) (selector : String) :
    (is_element_present_steps page selector).2 = page ∧
    (is_element_present_steps (is_element_present_steps page selector).2
        selector).1 = (is_element_present_steps page selector).1 ∧
    (is_element_present_steps page selector).1 = is_element_present page selector := by
  unfold is_element_present_steps is_element_present
  rcases h : qsList selector page.doc with _ | val <;> simp [h]

/-- C9: when the browser session manager reports no current page, `click`
raises the `ValueError` (instead of returning an outcome string) right after
the telemetry event and the page fetch: no screenshot, highlight, mutation
subscription, resolution or interaction step is ever performed. -/
theorem c9_theorem (cw : ClickWorld) (selector : String) (w : ℚ)
    (h : cw.current_page = none) :
    (click cw selector w).1 = Except.error no_active_page_message ∧
    (click cw selector w).2 =
      [ClickAction.addEventTelemetry, ClickAction.getCurrentPage] ∧
    ClickAction.subscribeObserver ∉ (click cw selector w).2 ∧
    ClickAction.runDoClick ∉ (click cw selector w).2 := by
  refine ⟨by simp [click, h], by simp [click, h], ?_, ?_⟩
  · simp [click, h]
  · simp [click, h]

/-- C9 (witness) on the concrete no-page environment. -/
theorem c9_witness :
    (click cwNoPage "#x" (0 : ℚ)).1 = Except.error no_active_page_message ∧
    (click cwNoPage "#x" (0 : ℚ)).2 =
      [ClickAction.addEventTelemetry, ClickAction.getCurrentPage] ∧
    ClickAction.subscribeObserver ∉ (click cwNoPage "#x" (0 : ℚ)).2 ∧
    ClickAction.runDoClick ∉ (click cwNoPage "#x" (0 : ℚ)).2 :=
  c9_theorem cwNoPage "#x" (0 : ℚ) rfl

end Hercules

namespace Hercules

/-- `add_event` preserves the bucket invariant. -/
theorem add_event_wf (en : Bool) (ts : String) (et : EventType)
    (ed : EventData) (c : EventCollector) (hwf : CollectorWF c) :
    CollectorWF (add_event en ts et ed c) := by
  cases en with
  | false => simpa [add_event] using hwf
  | true =>
    intro p hp
    simp only [add_event, Bool.not_true, Bool.false_eq_true, if_false] at hp
    rcases mem_bucketsUpsert _ _ _ _ hp with h1 | h2
    · rw [h1]
      cases hl : List.lookup et.value c.buckets with
      | some b =>
        simp only [hl]
        have hb := hwf (et.value, b) (lookup_mem _ _ _ hl)
        simp at hb
        simp [hb]
      | none => simp [hl]
    · exact hwf p h2

/-- Any sequence of `add_event` calls preserves the bucket invariant. -/
theorem runAddEvents_wf (calls : List AddEventCall) :
    ∀ c : EventCollector, CollectorWF c → CollectorWF (runAddEvents calls c) := by
  induction calls with
  | nil =>
    intro c h
    simpa [runAddEvents] using h
  | cons call rest ih =>
    intro c h
    have h1 := add_event_wf call.telemetryEnabled call.timestamp
      call.event_type call.event_data c h
    simpa [runAddEvents] using ih _ h1

/-- C10: the telemetry collector keeps `event_count` equal to the length of
each bucket\x27s `events` list under every sequence of `add_event` calls;
with telemetry disabled a call leaves the collector entirely unchanged, and
with telemetry enabled it appends exactly one event to the bucket of the
event type (creating it if needed) and increments that bucket\x27s count by
one. -/
theorem c10_theorem (en : Bool) (ts : String) (et : EventType)
    (ed : EventData) (c : EventCollector) (hwf : CollectorWF c) :
    (en = false → add_event en ts et ed c = c) ∧
    (en = true →
      List.lookup et.value (add_event en ts et ed c).buckets =
        some { events := (bucketGet et.value c).events ++
                 [{ timestamp := ts, data := ed }],
               event_count := (bucketGet et.value c).event_count + 1 }) ∧
    CollectorWF (add_event en ts et ed c) ∧
    (∀ calls : List AddEventCall, CollectorWF (runAddEvents calls c)) := by
  refine ⟨?_, ?_, add_event_wf en ts et ed c hwf,
    fun calls => runAddEvents_wf calls c hwf⟩
  · intro h
    simp [add_event, h]
  · intro h
    subst h
    simp only [add_event, Bool.not_true, Bool.false_eq_true, if_false]
    unfold bucketGet
    cases hl : List.lookup et.value c.buckets with
    | some b =>
      simp only [hl]
      exact lookup_bucketsUpsert_self _ _ _
    | none =>
      simp only [hl]
      exact lookup_bucketsUpsert_self _ _ _

/-- C10 (witness): recording one interaction event in a fresh collector. -/
theorem c10_witness :
    List.lookup "interaction"
      (add_event true "t1" EventType.INTERACTION edClick collInit).buckets =
      some { events := [{ timestamp := "t1", data := edClick }],
             event_count := 1 } ∧
    CollectorWF (add_event true "t1" EventType.INTERACTION edClick collInit) :=
  ⟨(c10_theorem true "t1" EventType.INTERACTION edClick collInit
      (by intro p hp; simp [collInit] at hp)).2.1 rfl,
   (c10_theorem true "t1" EventType.INTERACTION edClick collInit
      (by intro p hp; simp [collInit] at hp)).2.2.1⟩

end Hercules
